import Mathlib

/-!
Verification of the endpoint-resolution subsystem of this repository
(rule-set interpreter, builtin resolver, endpoint-provider façade).
The component under test is exercised by `tests/unit/test_endpoint_provider.py`;
its data model and operations are embedded below.
-/

namespace EndpointResolution

/-! ### Character-list helpers (string splitting used by the function library) -/

/-- Split a character list at the first occurrence of `sep`, returning the
part before the separator and the part after it, or `none` when `sep` does
not occur. -/
def breakAtChar (sep : Char) : List Char → Option (List Char × List Char)
  | [] => none
  | c :: rest =>
    if c = sep then some ([], rest)
    else
      match breakAtChar sep rest with
      | none => none
      | some (pre, post) => some (c :: pre, post)

/-- Split a character list on `sep`, performing at most `n` splits
(mirrors Python `str.split(sep, n)`). -/
def splitMaxChars (sep : Char) : List Char → Nat → List (List Char)
  | cs, 0 => [cs]
  | cs, Nat.succ n =>
    match breakAtChar sep cs with
    | none => [cs]
    | some (pre, post) => pre :: splitMaxChars sep post n

/-- Split a character list at every character satisfying `p`
(mirrors Python `re.split` with a character class). -/
def splitAnyChars (p : Char → Bool) : List Char → List (List Char)
  | [] => [[]]
  | c :: rest =>
    if p c then [] :: splitAnyChars p rest
    else
      match splitAnyChars p rest with
      | [] => [[c]]
      | group :: groups => (c :: group) :: groups

/-- Split a string on a single separator character (no split limit). -/
def splitChar (s : String) (sep : Char) : List String :=
  (splitAnyChars (fun c => c = sep) s.data).map String.mk

/-! ### `aws.parseArn` -/

/-- The result of `aws.parseArn`: the six ARN fields, with the resource
field already split into a resource-id sequence. -/
structure Arn where
  partition : String
  service : String
  region : String
  accountId : String
  resourceId : List String
deriving DecidableEq, Repr

/-- Whether a character list begins with the four characters `arn:`. -/
def startsWithArnTag : List Char → Bool
  | 'a' :: 'r' :: 'n' :: ':' :: _ => true
  | _ => false

/-- Modelled from the spec: `aws.parseArn(s)` of the Function Library
(`botocore/endpoint_provider.py`, absent from `src/`): splits on `:` into
exactly six ARN fields; returns absent if the prefix is not `arn:` or fewer
than six fields are present; the sixth field (resource) is further split on
`/` or `:` into a resource-id sequence. -/
def awsParseArn (value : String) : Option Arn :=
  if ¬ startsWithArnTag value.data then none
  else
    match splitMaxChars ':' value.data 5 with
    | [_, p, s, r, a, res] =>
      some { partition := String.mk p
             service := String.mk s
             region := String.mk r
             accountId := String.mk a
             resourceId := (splitAnyChars (fun c => c = ':' ∨ c = '/') res).map String.mk }
    | _ => none

/-! ### `aws.partition` -/

/-- One entry of the partition table: a name, an explicit region list, a
region-matching predicate (the entry's region regular expression), and the
outputs the partition advertises. -/
structure PartitionSpec where
  name : String
  regions : List String
  regionRegex : String → Bool
  dnsSuffix : String

/-- Modelled from the spec: the partition table consumed by `aws.partition`
(the `partitions` document loaded by `Loader.load_data`, absent from
`src/`): a list of partition entries plus one designated default entry. -/
structure PartitionTable where
  partitions : List PartitionSpec
  dflt : PartitionSpec

/-- Whether a region string matches a partition entry: first the explicit
region list, then the entry's region regular expression. -/
def partitionMatches (p : PartitionSpec) (region : String) : Bool :=
  p.regions.contains region || p.regionRegex region

/-- Modelled from the spec: `aws.partition(region)` of the Function Library
(absent from `src/`): matches `region` against each partition's explicit
region list, then its region regular expression, in table order; if no
partition matches (including when `region` is absent), returns the
designated default partition rather than failing. -/
def awsPartition (tbl : PartitionTable) (region : Option String) : PartitionSpec :=
  match region with
  | none => tbl.dflt
  | some r =>
    match tbl.partitions.find? (fun p => partitionMatches p r) with
    | some p => p
    | none => tbl.dflt

/-- `\w` of the partition region patterns: ASCII letter, digit or underscore. -/
def isWordChar (c : Char) : Bool :=
  c.isAlpha || c.isDigit || c = '_'

/-- Modelled from the spec: the `aws` partition's region regular expression
`(us|eu|ap|sa|ca|me|af|il|mx)-\w+-\d+` anchored at both ends. -/
def awsRegionRegex (s : String) : Bool :=
  match splitChar s '-' with
  | [a, b, c] =>
    ["us", "eu", "ap", "sa", "ca", "me", "af", "il", "mx"].contains a
      && b ≠ "" && b.data.all isWordChar
      && c ≠ "" && c.data.all Char.isDigit
  | _ => false

/-- Modelled from the spec: the `aws-cn` partition's region regular
expression `cn-\w+-\d+` anchored at both ends. -/
def awsCnRegionRegex (s : String) : Bool :=
  match splitChar s '-' with
  | [a, b, c] =>
    a = "cn" && b ≠ "" && b.data.all isWordChar && c ≠ "" && c.data.all Char.isDigit
  | _ => false

/-- Modelled from the spec: the `aws-us-gov` partition's region regular
expression `us-gov-\w+-\d+` anchored at both ends. -/
def awsUsGovRegionRegex (s : String) : Bool :=
  match splitChar s '-' with
  | [a, g, b, c] =>
    a = "us" && g = "gov" && b ≠ "" && b.data.all isWordChar
      && c ≠ "" && c.data.all Char.isDigit
  | _ => false

/-- The `aws` partition entry of the modelled partition table. -/
def awsPartitionSpec : PartitionSpec :=
  { name := "aws"
    regions := ["us-east-1", "us-east-2", "us-west-1", "us-west-2", "eu-west-1"]
    regionRegex := awsRegionRegex
    dnsSuffix := "amazonaws.com" }

/-- Modelled from the spec: the standard partition table (the `partitions`
document, absent from `src/`), with the `aws` entry as the designated
default. -/
def standardPartitionTable : PartitionTable :=
  { partitions :=
      [ awsPartitionSpec
      , { name := "aws-cn"
          regions := ["cn-north-1", "cn-northwest-1"]
          regionRegex := awsCnRegionRegex
          dnsSuffix := "amazonaws.com.cn" }
      , { name := "aws-us-gov"
          regions := ["us-gov-east-1", "us-gov-west-1"]
          regionRegex := awsUsGovRegionRegex
          dnsSuffix := "amazonaws.com" } ]
    dflt := awsPartitionSpec }

/-! ### `aws.isVirtualHostableS3Bucket` -/

/-- Whether a string is formatted as an IPv4 address: four dot-separated
groups of one or more digits. -/
def isIpv4Like (s : String) : Bool :=
  match splitChar s '.' with
  | [a, b, c, d] =>
    [a, b, c, d].all fun g => g ≠ "" && g.data.all Char.isDigit
  | _ => false

/-- Whether one dot-free label of a bucket name satisfies the DNS label
rules: nonempty, lowercase alphanumerics and `-` only, with no leading or
trailing `-`. -/
def validBucketLabel (label : String) : Bool :=
  label.data ≠ []
    && label.data.head? ≠ some '-'
    && label.data.getLast? ≠ some '-'
    && label.data.all (fun c => c.isLower || c.isDigit || c = '-')

/-- Modelled from the spec: `aws.isVirtualHostableS3Bucket(bucket,
allowSubdomains)` of the Function Library (absent from `src/`): true iff
`bucket` satisfies DNS label rules (lowercase alphanumerics, `.`, `-`;
length 3–63; no leading/trailing `-`; not formatted as an IPv4 address);
when `allowSubdomains` is false, an embedded `.` disqualifies the bucket.
The length bound applies to the whole name; with `allowSubdomains` the
label rules apply to each dot-separated label. -/
def isVirtualHostableS3Bucket (value : String) (allowSubdomains : Bool) : Bool :=
  if value.length < 3 then false
  else if 63 < value.length then false
  else if isIpv4Like value then false
  else if allowSubdomains then (splitChar value '.').all validBucketLabel
  else validBucketLabel value

/-! ### Values and scopes -/

/-- A runtime value of the rule language: strings, booleans, sequences and
mappings (the shapes produced by parameters, builtins and library
functions). -/
inductive Value where
  | str : String → Value
  | bool : Bool → Value
  | arr : List Value → Value
  | obj : List (String × Value) → Value

/-- Look a key up in the field list of a `Value.obj`. -/
def objGet (fields : List (String × Value)) (key : String) : Option Value :=
  (fields.find? (fun kv => kv.fst == key)).map (fun kv => kv.snd)

/-- The variable scope of one evaluation path: name to bound value.
A name may be bound to an absent result (Python `None`), which is still a
binding for the duplicate-assignment check. -/
def Scope := List (String × Option Value)

/-- Look a name up in a scope; an absent binding and a binding to an absent
value are both absent (mirrors `scope_vars.get(name)`). -/
def scopeFind (scope : Scope) (name : String) : Option Value :=
  match scope.find? (fun kv => kv.fst == name) with
  | some kv => kv.snd
  | none => none

/-- Whether a scope binds a name at all (mirrors `name in scope_vars`). -/
def scopeHas (scope : Scope) (name : String) : Bool :=
  scope.any (fun kv => kv.fst == name)

/-! ### Template strings -/

/-- Resolve one `Ref` or `Ref#attr` template reference against a scope,
requiring the final value to be a string. -/
def templateRefValue (scope : Scope) (ref : List Char) : Option String :=
  match breakAtChar '#' ref with
  | none =>
    match scopeFind scope (String.mk ref) with
    | some (Value.str s) => some s
    | _ => none
  | some (base, attr) =>
    match scopeFind scope (String.mk base) with
    | some (Value.obj fields) =>
      match objGet fields (String.mk attr) with
      | some (Value.str s) => some s
      | _ => none
    | _ => none

/-- Modelled from the spec: `resolve_template_string` of the evaluator
(`botocore/endpoint_provider.py`, absent from `src/`): characters outside
braces are literal; `\x7bRef\x7d` and `\x7bRef#attr\x7d` substitute the
referenced scope value; an unresolvable reference is a resolution error.
The second argument accumulates the reference name while inside braces. -/
def renderTemplateAux (scope : Scope) : List Char → Option (List Char) → Except String (List Char)
  | [], none => .ok []
  | [], some _ => .error "unterminated template reference"
  | c :: rest, none =>
    if c = '\x7b' then renderTemplateAux scope rest (some [])
    else (renderTemplateAux scope rest none).map (fun tail => c :: tail)
  | c :: rest, some acc =>
    if c = '\x7d' then
      match templateRefValue scope acc.reverse with
      | some v => (renderTemplateAux scope rest none).map (fun tail => v.data ++ tail)
      | none => .error ("reference " ++ String.mk acc.reverse ++ " not found in scope")
    else renderTemplateAux scope rest (some (c :: acc))

/-- Resolve a template string against a scope. -/
def renderTemplate (scope : Scope) (s : String) : Except String String :=
  (renderTemplateAux scope s.data none).map String.mk

/-! ### Conditions and the function dispatch table -/

/-- An argument or condition expression: a scope reference, a (template)
string literal, a boolean literal, or a named function call with optional
`assign` binding. A condition is a function-call expression. -/
inductive Expr where
  | ref (name : String)
  | strLit (s : String)
  | boolLit (b : Bool)
  | fnCall (fn : String) (argv : List Expr) (assign : Option String)

/-- The mapping form of a parsed ARN, as bound into scope by
`aws.parseArn`. -/
def arnToValue (a : Arn) : Value :=
  .obj [ ("partition", .str a.partition)
       , ("service", .str a.service)
       , ("region", .str a.region)
       , ("accountId", .str a.accountId)
       , ("resourceId", .arr (a.resourceId.map Value.str)) ]

/-- The mapping form of a partition entry, as bound into scope by
`aws.partition`. -/
def partitionToValue (p : PartitionSpec) : Value :=
  .obj [("name", .str p.name), ("dnsSuffix", .str p.dnsSuffix)]

/-- Modelled from the spec: the static dispatch table of the Function
Library (absent from `src/`), applied to already-scope-resolved arguments.
Type errors are resolution errors, not silently coerced. -/
def applyFn (tbl : PartitionTable) (fn : String) (args : List (Option Value)) :
    Except String (Option Value) :=
  match fn, args with
  | "isSet", [v] => .ok (some (.bool v.isSome))
  | "not", [some (.bool b)] => .ok (some (.bool !b))
  | "not", [none] => .ok (some (.bool true))
  | "stringEquals", [some (.str a), some (.str b)] => .ok (some (.bool (a == b)))
  | "stringEquals", [_, _] => .error "Both values must be strings"
  | "booleanEquals", [some (.bool a), some (.bool b)] => .ok (some (.bool (a == b)))
  | "booleanEquals", [_, _] => .error "Both arguments must be bools"
  | "aws.parseArn", [some (.str s)] => .ok ((awsParseArn s).map arnToValue)
  | "aws.parseArn", [none] => .ok none
  | "aws.partition", [some (.str r)] =>
    .ok (some (partitionToValue (awsPartition tbl (some r))))
  | "aws.partition", [none] =>
    .ok (some (partitionToValue (awsPartition tbl none)))
  | "aws.isVirtualHostableS3Bucket", [some (.str b), some (.bool a)] =>
    .ok (some (.bool (isVirtualHostableS3Bucket b a)))
  | _, _ => .error ("Unknown function: " ++ fn)

mutual

/-- Modelled from the spec: `resolve_value` of the evaluator (absent from
`src/`): a `Ref` reads the scope (absent if unbound); a string literal is
template-resolved; a nested function call is invoked, resolving its `argv`
left to right (each argument may extend the scope through nested `assign`s),
then binding its `assign` name — re-assigning a name already present in
scope is a fatal error with the exact message
`Assignment NAME already exists in scoped variables and cannot be
overwritten`, not a silent overwrite. -/
def resolveValue (tbl : PartitionTable) : Expr → Scope → Except String (Option Value × Scope)
  | .ref name, scope => .ok (scopeFind scope name, scope)
  | .strLit s, scope => (renderTemplate scope s).map (fun r => (some (.str r), scope))
  | .boolLit b, scope => .ok (some (.bool b), scope)
  | .fnCall fn argv assign, scope => do
    let (args, scope1) ← resolveArgs tbl argv scope
    let result ← applyFn tbl fn args
    match assign with
    | none => .ok (result, scope1)
    | some name =>
      if scopeHas scope1 name then
        .error ("Assignment " ++ name ++
          " already exists in scoped variables and cannot be overwritten")
      else
        .ok (result, (name, result) :: scope1)

/-- Resolve a list of argument expressions left to right, threading the
scope through nested assignments. -/
def resolveArgs (tbl : PartitionTable) : List Expr → Scope → Except String (List (Option Value) × Scope)
  | [], scope => .ok ([], scope)
  | e :: rest, scope => do
    let (v, scope1) ← resolveValue tbl e scope
    let (vs, scope2) ← resolveArgs tbl rest scope1
    .ok (v :: vs, scope2)

end

/-- Condition truth: an absent result and boolean false do not match;
every other value matches. -/
def truthy : Option Value → Bool
  | none => false
  | some (.bool b) => b
  | some _ => true

/-- Modelled from the spec: `evaluate_conditions` of a rule (absent from
`src/`): conditions are evaluated left to right; the first falsy condition
short-circuits to "rule does not match"; assignments extend the scope for
the following conditions. -/
def evaluateConditions (tbl : PartitionTable) : List Expr → Scope → Except String (Bool × Scope)
  | [], scope => .ok (true, scope)
  | c :: rest, scope => do
    let (result, scope1) ← resolveValue tbl c scope
    if truthy result then evaluateConditions tbl rest scope1
    else .ok (false, scope1)

/-! ### Rules and rule sets -/

/-- The endpoint node of an `EndpointRule`: a url template plus property
and header expressions, all resolved against scope on success. -/
structure EndpointDef where
  url : String
  properties : List (String × Expr) := []
  headers : List (String × List Expr) := []

/-- A successfully resolved endpoint. -/
structure ResolvedEndpoint where
  url : String
  properties : List (String × Option Value) := []
  headers : List (String × List (Option Value)) := []

/-- The rule tree: a closed tagged union of the three rule kinds, each
guarded by an ordered condition list. -/
inductive Rule where
  | endpointRule (conditions : List Expr) (endpoint : EndpointDef)
  | errorRule (conditions : List Expr) (error : String)
  | treeRule (conditions : List Expr) (rules : List Rule)

/-- Resolve the named property expressions of an endpoint node, left to
right, threading the scope. -/
def resolveNamedArgs (tbl : PartitionTable) :
    List (String × Expr) → Scope → Except String (List (String × Option Value) × Scope)
  | [], scope => .ok ([], scope)
  | (k, e) :: rest, scope => do
    let (v, scope1) ← resolveValue tbl e scope
    let (vs, scope2) ← resolveNamedArgs tbl rest scope1
    .ok ((k, v) :: vs, scope2)

/-- Resolve the header expression lists of an endpoint node, left to
right, threading the scope. -/
def resolveHeaderArgs (tbl : PartitionTable) :
    List (String × List Expr) → Scope → Except String (List (String × List (Option Value)) × Scope)
  | [], scope => .ok ([], scope)
  | (k, es) :: rest, scope => do
    let (vs, scope1) ← resolveArgs tbl es scope
    let (rests, scope2) ← resolveHeaderArgs tbl rest scope1
    .ok ((k, vs) :: rests, scope2)

/-- Resolve the url template and the property and header expressions of an
endpoint node against the scope of the matched rule. -/
def resolveEndpointDef (tbl : PartitionTable) (ep : EndpointDef) (scope : Scope) :
    Except String ResolvedEndpoint := do
  let url ← renderTemplate scope ep.url
  let (props, scope1) ← resolveNamedArgs tbl ep.properties scope
  let (headers, _) ← resolveHeaderArgs tbl ep.headers scope1
  .ok { url := url, properties := props, headers := headers }

mutual

/-- Modelled from the spec: `Rule.evaluate` (absent from `src/`): if all
conditions pass, an endpoint rule renders and returns its endpoint, an
error rule renders its message and fails resolution (not backtracked), and
a tree rule recurses into its nested rules with the extended scope; a rule
whose conditions do not all pass yields "no match". -/
def evalRule (tbl : PartitionTable) : Rule → Scope → Except String (Option ResolvedEndpoint)
  | .endpointRule conds ep, scope => do
    let (ok, scope1) ← evaluateConditions tbl conds scope
    if ok then (resolveEndpointDef tbl ep scope1).map some
    else .ok none
  | .errorRule conds msg, scope => do
    let (ok, scope1) ← evaluateConditions tbl conds scope
    if ok then
      match renderTemplate scope1 msg with
      | .ok rendered => .error rendered
      | .error e => .error e
    else .ok none
  | .treeRule conds rules, scope => do
    let (ok, scope1) ← evaluateConditions tbl conds scope
    if ok then evalRules tbl rules scope1
    else .ok none

/-- Modelled from the spec: depth-first, first-match search over sibling
rules in declared order; each sibling starts from the parent scope, so a
failed subtree's bindings are invisible to the next sibling (backtracking
with scope rollback). -/
def evalRules (tbl : PartitionTable) : List Rule → Scope → Except String (Option ResolvedEndpoint)
  | [], _ => .ok none
  | r :: rest, scope => do
    match ← evalRule tbl r scope with
    | some ep => .ok (some ep)
    | none => evalRules tbl rest scope

end

/-- A caller-suppliable parameter value: the declared parameter types are
string, boolean and string-array. -/
inductive ParamValue where
  | str (s : String)
  | bool (b : Bool)
  | strArr (ss : List String)
deriving DecidableEq, Repr

/-- The `Value` form of a parameter value, as seeded into scope. -/
def ParamValue.toValue : ParamValue → Value
  | .str s => .str s
  | .bool b => .bool b
  | .strArr ss => .arr (ss.map Value.str)

/-- The fully merged parameter snapshot handed to `resolve_endpoint`. -/
def Snapshot := List (String × ParamValue)

/-- A typed parameter declaration of a rule set (builtin binding, required
flag and default value; the runtime type itself is fixed by `ParamValue`). -/
structure RulesetParameter where
  name : String
  builtIn : Option String := none
  required : Bool := false
  dfault : Option ParamValue := none

/-- A loaded rule set: version, parameter declarations and the rule tree. -/
structure RuleSet where
  version : String
  parameters : List RulesetParameter
  rules : List Rule

/-- Seed the evaluation scope from a validated snapshot: supplied values
verbatim, then declared defaults for parameters the snapshot leaves
absent. -/
def seedScope (rs : RuleSet) (input : Snapshot) : Scope :=
  input.map (fun kv => (kv.fst, some kv.snd.toValue)) ++
    rs.parameters.filterMap (fun p =>
      if input.any (fun kv => kv.fst == p.name) then none
      else p.dfault.map (fun d => (p.name, some d.toValue)))

/-- Modelled from the spec: `RuleSet.evaluate` (absent from `src/`): walk
the top-level rules in declared order against the seeded scope; if the
list is exhausted without any match, fail with
`No endpoint found for parameters`. -/
def ruleSetEvaluate (tbl : PartitionTable) (rs : RuleSet) (input : Snapshot) :
    Except String ResolvedEndpoint :=
  match evalRules tbl rs.rules (seedScope rs input) with
  | .error e => .error e
  | .ok none => .error "No endpoint found for parameters"
  | .ok (some ep) => .ok ep

/-! ### The endpoint-provider façade and its result cache -/

/-- The façade's cache bound (the original's exact constant is
implementation-defined; the spec fixes only that the cache is bounded). -/
def CACHE_SIZE : Nat := 100

/-- Look a key up in a snapshot (order-independent view of the merged
parameters). -/
def snapshotGet (ps : Snapshot) (key : String) : Option ParamValue :=
  ((ps : List (String × ParamValue)).find? (fun kv => kv.fst == key)).map (fun kv => kv.snd)

/-- Order-independent snapshot equality: the two snapshots agree on the
keys of both. -/
def snapshotEquiv (a b : Snapshot) : Bool :=
  (a : List (String × ParamValue)).all
      (fun kv => decide (snapshotGet b kv.fst = snapshotGet a kv.fst))
    && (b : List (String × ParamValue)).all
      (fun kv => decide (snapshotGet a kv.fst = snapshotGet b kv.fst))

/-- The façade's result cache: most recent entry first, bounded length. -/
def ProviderCache := List (Snapshot × ResolvedEndpoint)

/-- Find the cached endpoint of an equivalent snapshot, if any. -/
def cacheLookup (cache : ProviderCache) (p : Snapshot) : Option ResolvedEndpoint :=
  ((cache : List (Snapshot × ResolvedEndpoint)).find? (fun e => snapshotEquiv e.fst p)).map
    (fun e => e.snd)

/-- Record a resolution in the cache, evicting the oldest entries beyond
the bound. -/
def cacheInsert (cache : ProviderCache) (p : Snapshot) (ep : ResolvedEndpoint) : ProviderCache :=
  (p, ep) :: (cache : List (Snapshot × ResolvedEndpoint)).take (CACHE_SIZE - 1)

/-- Modelled from the spec: `EndpointProvider.resolve_endpoint` (absent
from `src/`): a memoizing façade over the rule-tree evaluator, keyed by the
fully merged, order-independent parameter snapshot. A cache hit returns the
cached endpoint without invoking the evaluator; a miss invokes it exactly
once and caches a successful result. The returned number counts the
evaluator invocations performed by this call. -/
def resolveEndpointCached (evaluate : Snapshot → Except String ResolvedEndpoint)
    (cache : ProviderCache) (p : Snapshot) :
    Except String ResolvedEndpoint × ProviderCache × Nat :=
  match cacheLookup cache p with
  | some ep => (.ok ep, cache, 0)
  | none =>
    match evaluate p with
    | .ok ep => (.ok ep, cacheInsert cache p ep, 1)
    | .error e => (.error e, cache, 1)

/-- The endpoint provider of one service: a parsed rule set evaluated over
the partition table, behind the cache. -/
def providerResolve (tbl : PartitionTable) (rs : RuleSet) (cache : ProviderCache)
    (p : Snapshot) : Except String ResolvedEndpoint × ProviderCache × Nat :=
  resolveEndpointCached (ruleSetEvaluate tbl rs) cache p

/-! ### Builtin resolution (account id, credential scope) -/

/-- A set of credentials active for the call; the account id and the
credential scope are the parts the builtin resolver reads. -/
structure Credentials where
  accessKey : String := ""
  secretKey : String := ""
  token : String := ""
  accountId : Option String := none
  scope : Option String := none

/-- The `account_id_endpoint_mode` configuration setting (case-sensitive;
any other spelling is rejected as a configuration error before
resolution). -/
inductive AccountIdEndpointMode where
  | required
  | preferred
  | disabled
deriving DecidableEq, Repr

/-- The builtin resolver's failure: account id required but unresolvable. -/
inductive BuiltinError where
  | accountIdNotFound
deriving DecidableEq, Repr

/-- Modelled from the spec and `test_account_id_builtin` of
`src/tests/unit/test_endpoint_provider.py`: account-id resolution of
`CredentialBuiltinResolver` (`botocore/regions.py`, absent from `src/`).
When no credentials are active the account id builtin is cleared to absent
(no error, even in `required` mode — pinned by the test case with resolved
builtin, no credentials and `required` mode expecting the no-account-id
URL). Otherwise `disabled` clears the account id regardless of any explicit
value; `required`/`preferred` prefer an explicitly supplied value over the
credentials' account id, and `required` fails with an account-id-not-found
error when neither is present. -/
def resolveAccountIdBuiltin (creds : Option Credentials) (mode : AccountIdEndpointMode)
    (explicit : Option String) : Except BuiltinError (Option String) :=
  match creds with
  | none => .ok none
  | some c =>
    match mode with
    | .disabled => .ok none
    | .preferred => .ok (explicit.orElse fun _ => c.accountId)
    | .required =>
      match explicit.orElse fun _ => c.accountId with
      | none => .error .accountIdNotFound
      | some a => .ok (some a)

/-- Modelled from the spec: credential-scope resolution of
`CredentialBuiltinResolver` (absent from `src/`): an explicitly
supplied/pre-resolved scope value wins; else the active credentials' scope,
if any, is used; absent otherwise. -/
def resolveCredentialScopeBuiltin (creds : Option Credentials) (explicit : Option String) :
    Option String :=
  explicit.orElse fun _ => creds.bind fun c => c.scope

/-! ### The ruleset-resolver façade over the two builtin-driven rule sets -/

/-- Modelled from the spec: the `aws-account-id.json` rule set of
`src/tests/unit/data/endpoints/valid-rules` (absent from `src/`), as pinned
by `test_account_id_builtin`: when the `AccountId` builtin-bound parameter
is set the endpoint url carries it as a leading subdomain, else the plain
url is returned. -/
def accountIdRuleset : RuleSet :=
  { version := "1.0"
    parameters := [{ name := "AccountId", builtIn := some "AWS::Auth::AccountId" }]
    rules :=
      [ .endpointRule [.fnCall "isSet" [.ref "AccountId"] none]
          { url := "https://{AccountId}.amazonaws.com" }
      , .endpointRule [] { url := "https://amazonaws.com" } ] }

/-- Modelled from the spec: the `aws-credential-scope.json` rule set
(absent from `src/`), as pinned by `test_credential_scope_builtin`: when
the `CredentialScope` builtin-bound parameter is set the endpoint url is
qualified by it, else the no-scope url is returned. -/
def credentialScopeRuleset : RuleSet :=
  { version := "1.0"
    parameters := [{ name := "CredentialScope", builtIn := some "AWS::Auth::CredentialScope" }]
    rules :=
      [ .endpointRule [.fnCall "isSet" [.ref "CredentialScope"] none]
          { url := "https://{CredentialScope}.amazonaws.com" }
      , .endpointRule [] { url := "https://amazonaws.com" } ] }

/-- A failure of `construct_endpoint`: the builtin resolver's
account-id-not-found error, or a resolution error from the rule tree. -/
inductive ConstructError where
  | accountIdNotFound
  | resolution (msg : String)

/-- Modelled from the spec: `EndpointRulesetResolver.construct_endpoint`
(absent from `src/`) over the account-id rule set: resolve the account-id
builtin from the explicit builtin value, the active credentials and the
mode, pass it (when present) as the `AccountId` parameter, and evaluate the
rule set. -/
def constructAccountIdEndpoint (explicit : Option String) (creds : Option Credentials)
    (mode : AccountIdEndpointMode) : Except ConstructError ResolvedEndpoint :=
  match resolveAccountIdBuiltin creds mode explicit with
  | .error .accountIdNotFound => .error .accountIdNotFound
  | .ok acct =>
    let params : Snapshot :=
      match acct with
      | some a => [("AccountId", .str a)]
      | none => []
    match ruleSetEvaluate standardPartitionTable accountIdRuleset params with
    | .ok ep => .ok ep
    | .error e => .error (.resolution e)

/-- Modelled from the spec: `EndpointRulesetResolver.construct_endpoint`
(absent from `src/`) over the credential-scope rule set: resolve the
credential-scope builtin, pass it (when present) as the `CredentialScope`
parameter, evaluate the rule set, and report whether a scope was set
(the resolver's `credential_scope_set`). -/
def constructCredentialScopeEndpoint (explicit : Option String) (creds : Option Credentials) :
    Except ConstructError (ResolvedEndpoint × Bool) :=
  let scope := resolveCredentialScopeBuiltin creds explicit
  let params : Snapshot :=
    match scope with
    | some s => [("CredentialScope", .str s)]
    | none => []
  match ruleSetEvaluate standardPartitionTable credentialScopeRuleset params with
  | .ok ep => .ok (ep, scope.isSome)
  | .error e => .error (.resolution e)

/-! ### Auth scheme to signing context -/

/-- One auth-scheme descriptor advertised by a resolved endpoint
(unrecognized extra keys of the original mapping are dropped). -/
structure AuthScheme where
  name : String
  signingName : Option String := none
  signingRegion : Option String := none
  signingRegionSet : Option (List String) := none
  disableDoubleEncoding : Option Bool := none

/-- The signing context handed to the request-signing stage. -/
structure SigningContext where
  region : Option String := none
  signing_name : Option String := none
  disableDoubleEncoding : Option Bool := none
deriving DecidableEq, Repr

/-- A failure of auth-scheme selection: `sigv4a` without the
cryptographic-acceleration capability, or no candidate with a usable auth
type. -/
inductive AuthSchemeError where
  | missingDependency
  | unknownSignatureVersion
deriving DecidableEq, Repr

/-- Modelled from the spec and the `test_auth_schemes_conversion_*` tests:
`EndpointRulesetResolver.auth_schemes_to_signing_ctx`
(`botocore/regions.py`, absent from `src/`): iterate the candidates in
order; `sigv4` maps to auth type `v4`; `sigv4a` requires the
crypto-acceleration capability (else a missing-dependency error) and maps
to `v4a` with the first element of `signingRegionSet` (or `*`); any other
name is looked up in the alias table — a name the table does not map to a
known auth type is skipped in favor of the next candidate; when no
candidate yields a usable auth type, fail with an
unknown-signature-version error. -/
def authSchemesToSigningCtx (hasCrt : Bool) (knownAuthTypes : List String) :
    List AuthScheme → Except AuthSchemeError (String × SigningContext)
  | [] => .error .unknownSignatureVersion
  | s :: rest =>
    if s.name = "sigv4" then
      .ok ("v4", { region := s.signingRegion
                   signing_name := s.signingName
                   disableDoubleEncoding := s.disableDoubleEncoding })
    else if s.name = "sigv4a" then
      if hasCrt then
        .ok ("v4a", { region := some (((s.signingRegionSet).getD []).headD "*")
                      signing_name := s.signingName })
      else .error .missingDependency
    else if knownAuthTypes.contains s.name then
      .ok (s.name, { region := s.signingRegion, signing_name := s.signingName })
    else authSchemesToSigningCtx hasCrt knownAuthTypes rest

/-! ### Theorems -/

/-- **C6.** `aws.parseArn` splits its input on `:` into exactly six ARN
fields, returns absent if the input does not start with `arn:` or has fewer
than six fields, and splits the sixth (resource) field on `/` or `:` into a
resource-id sequence; in particular `arn:aws:s3:::myBucket/key` parses to
partition `aws`, service `s3`, empty region and account id, and resource id
`[myBucket, key]`; the kinesis ARN parses with resource id
`[stream, mystream, foo]`; and `arn:aws:this-is-not-an-arn:foo` parses to
absent. -/
theorem awsParseArn_spec :
    (∀ s : String, startsWithArnTag s.data = false → awsParseArn s = none)
    ∧ (∀ s : String, (splitMaxChars ':' s.data 5).length < 6 → awsParseArn s = none)
    ∧ awsParseArn "arn:aws:s3:::myBucket/key" =
        some { partition := "aws", service := "s3", region := "", accountId := "",
               resourceId := ["myBucket", "key"] }
    ∧ awsParseArn "arn:aws:kinesis:us-east-1:1234567890:stream/mystream:foo" =
        some { partition := "aws", service := "kinesis", region := "us-east-1",
               accountId := "1234567890", resourceId := ["stream", "mystream", "foo"] }
    ∧ awsParseArn "arn:aws:this-is-not-an-arn:foo" = none := by
  refine ⟨?_, ?_, by decide, by decide, by decide⟩
  · intro s h
    unfold awsParseArn
    rw [if_pos]
    simp [h]
  · intro s h
    unfold awsParseArn
    split
    · rfl
    · split
      · next heq =>
        rw [heq] at h
        simp at h
      · rfl

/-- Witness for C6: the absent cases hold at concrete inputs. -/
theorem awsParseArn_spec_witness :
    awsParseArn "this-is-not-an-arn" = none ∧ awsParseArn "arn:aws:s3" = none :=
  ⟨awsParseArn_spec.1 "this-is-not-an-arn" (by decide),
   awsParseArn_spec.2.1 "arn:aws:s3" (by decide)⟩

/-- **C7.** `aws.partition` matches its region argument against each
partition's explicit region list, then its region regular expression, in
table order (the first matching entry wins), and when no partition matches
— including when the region argument is absent or an unmatchable string
such as `invalid-region-42` — it returns the designated default partition
named `aws` rather than failing. -/
theorem awsPartition_spec :
    (∀ tbl : PartitionTable, awsPartition tbl none = tbl.dflt)
    ∧ (∀ (tbl : PartitionTable) (r : String),
        (∀ p ∈ tbl.partitions, partitionMatches p r = false) →
        awsPartition tbl (some r) = tbl.dflt)
    ∧ (∀ (tbl : PartitionTable) (r : String) (p : PartitionSpec),
        tbl.partitions.find? (fun q => partitionMatches q r) = some p →
        awsPartition tbl (some r) = p)
    ∧ (awsPartition standardPartitionTable none).name = "aws"
    ∧ (awsPartition standardPartitionTable (some "invalid-region-42")).name = "aws" := by
  refine ⟨fun tbl => rfl, ?_, ?_, rfl, rfl⟩
  · intro tbl r h
    have hf : tbl.partitions.find? (fun p => partitionMatches p r) = none :=
      List.find?_eq_none.mpr (by intro p hp; simp [h p hp])
    simp [awsPartition, hf]
  · intro tbl r p h
    simp [awsPartition, h]

/-- Witness for C7: no partition of the standard table matches
`invalid-region-42`, so the default (`aws`) is returned; the `aws-cn`
entry is found first for `cn-north-1`. -/
theorem awsPartition_spec_witness :
    awsPartition standardPartitionTable (some "invalid-region-42")
        = standardPartitionTable.dflt
    ∧ awsPartition standardPartitionTable (some "cn-north-1")
        = standardPartitionTable.partitions[1] :=
  ⟨awsPartition_spec.2.1 standardPartitionTable "invalid-region-42" (by decide),
   awsPartition_spec.2.2.1 standardPartitionTable "cn-north-1"
     standardPartitionTable.partitions[1] (by rfl)⟩

/-- **C8.** `aws.isVirtualHostableS3Bucket(bucket, allowSubdomains)`
returns true only for buckets satisfying the DNS label rules — lowercase
alphanumerics plus `.` and `-`, whole-name length 3 to 63, no leading or
trailing `-`, not formatted as an IPv4 address — with an embedded `.`
disqualifying the bucket when `allowSubdomains` is false; in particular
`mybucket` is accepted while `192.168.1.1`, `mY.GREAT.bucket.aws.com` and
`ab` are rejected. -/
theorem isVirtualHostableS3Bucket_spec :
    isVirtualHostableS3Bucket "mybucket" true = true
    ∧ isVirtualHostableS3Bucket "192.168.1.1" true = false
    ∧ isVirtualHostableS3Bucket "mY.GREAT.bucket.aws.com" true = false
    ∧ isVirtualHostableS3Bucket "ab" true = false
    ∧ (∀ (b : String) (sub : Bool), isVirtualHostableS3Bucket b sub = true →
        3 ≤ b.length ∧ b.length ≤ 63 ∧ isIpv4Like b = false)
    ∧ (∀ b : String, isVirtualHostableS3Bucket b false = true → validBucketLabel b = true)
    ∧ (∀ b : String, '.' ∈ b.data → isVirtualHostableS3Bucket b false = false) := by
  refine ⟨by decide, by decide, by decide, by decide, ?_, ?_, ?_⟩
  · intro b sub h
    unfold isVirtualHostableS3Bucket at h
    split at h
    · cases h
    · split at h
      · cases h
      · split at h
        · cases h
        · next h1 h2 h3 => exact ⟨by omega, by omega, by simpa using h3⟩
  · intro b h
    unfold isVirtualHostableS3Bucket at h
    split at h
    · cases h
    · split at h
      · cases h
      · split at h
        · cases h
        · simpa using h
  · intro b h
    have hlab : validBucketLabel b = false := by
      unfold validBucketLabel
      have : b.data.all (fun c => c.isLower || c.isDigit || c = '-') = false := by
        rw [List.all_eq_false]
        exact ⟨'.', h, by decide⟩
      simp [this]
    unfold isVirtualHostableS3Bucket
    split
    · rfl
    · split
      · rfl
      · split
        · rfl
        · simpa using hlab

/-- Witness for C8: applying the structural conjuncts at concrete
buckets. -/
theorem isVirtualHostableS3Bucket_spec_witness :
    (3 ≤ ("mybucket" : String).length ∧ ("mybucket" : String).length ≤ 63
      ∧ isIpv4Like "mybucket" = false)
    ∧ validBucketLabel "mybucket" = true
    ∧ isVirtualHostableS3Bucket "my.bucket" false = false :=
  ⟨isVirtualHostableS3Bucket_spec.2.2.2.2.1 "mybucket" true (by decide),
   isVirtualHostableS3Bucket_spec.2.2.2.2.2.1 "mybucket" (by decide),
   isVirtualHostableS3Bucket_spec.2.2.2.2.2.2 "my.bucket" (by decide)⟩

/-- **C10.** With `allowSubdomains` true, the 3–63 length requirement of
`aws.isVirtualHostableS3Bucket` applies to the whole bucket name, not to
each dot-separated label: `a.b` (whole length 3, labels of length 1) is
accepted, its one-character label `a` passing the label rules, while the
undotted two-character name `ab` is rejected. -/
theorem isVirtualHostableS3Bucket_whole_length :
    isVirtualHostableS3Bucket "a.b" true = true
    ∧ validBucketLabel "a" = true
    ∧ isVirtualHostableS3Bucket "ab" true = false := by
  decide

/-- **C4.** Auth-scheme selection iterates the endpoint's advertised
scheme descriptors in order; a scheme name that the alias table does not
map to a known auth type is skipped in favor of the next candidate, and if
no candidate in the list yields a usable auth type,
`auth_schemes_to_signing_ctx` fails with an unknown-signature-version
error. -/
theorem authSchemesToSigningCtx_spec :
    (∀ (hasCrt : Bool) (known : List String) (s : AuthScheme) (rest : List AuthScheme),
        s.name ≠ "sigv4" → s.name ≠ "sigv4a" → known.contains s.name = false →
        authSchemesToSigningCtx hasCrt known (s :: rest)
          = authSchemesToSigningCtx hasCrt known rest)
    ∧ (∀ (hasCrt : Bool) (known : List String) (schemes : List AuthScheme),
        (∀ s ∈ schemes, s.name ≠ "sigv4" ∧ s.name ≠ "sigv4a"
          ∧ known.contains s.name = false) →
        authSchemesToSigningCtx hasCrt known schemes = .error .unknownSignatureVersion) := by
  have hskip : ∀ (hasCrt : Bool) (known : List String) (s : AuthScheme)
      (rest : List AuthScheme),
      s.name ≠ "sigv4" → s.name ≠ "sigv4a" → known.contains s.name = false →
      authSchemesToSigningCtx hasCrt known (s :: rest)
        = authSchemesToSigningCtx hasCrt known rest := by
    intro hasCrt known s rest h1 h2 h3
    conv_lhs => rw [authSchemesToSigningCtx]
    rw [if_neg h1, if_neg h2, h3]
    simp
  refine ⟨hskip, ?_⟩
  intro hasCrt known schemes h
  induction schemes with
  | nil => rfl
  | cons s rest ih =>
    have hs := h s (List.mem_cons_self s rest)
    rw [hskip hasCrt known s rest hs.1 hs.2.1 hs.2.2]
    exact ih (fun t ht => h t (List.mem_cons_of_mem s ht))

/-- Witness for C4: the two-candidate list of
`test_auth_schemes_conversion_no_known_auth_types` fails with the
unknown-signature-version error, and with `bar` known the first candidate
is skipped in favor of `bar`
(`test_auth_schemes_conversion_first_authtype_unknown`). -/
theorem authSchemesToSigningCtx_spec_witness :
    authSchemesToSigningCtx false []
      [ { name := "foo", signingName := some "s3", signingRegion := some "ap-south-2" }
      , { name := "bar" } ] = .error .unknownSignatureVersion
    ∧ authSchemesToSigningCtx false ["bar"]
        [ { name := "foo", signingName := some "s3", signingRegion := some "ap-south-1" }
        , { name := "bar", signingName := some "s3", signingRegion := some "ap-south-2" } ]
        = .ok ("bar", { region := some "ap-south-2", signing_name := some "s3" }) :=
  ⟨authSchemesToSigningCtx_spec.2 false []
      [ { name := "foo", signingName := some "s3", signingRegion := some "ap-south-2" }
      , { name := "bar" } ]
      (by intro s hs; fin_cases hs <;> exact ⟨by decide, by decide, by decide⟩),
   by
    rw [authSchemesToSigningCtx_spec.1 false ["bar"]
      { name := "foo", signingName := some "s3", signingRegion := some "ap-south-1" }
      [ { name := "bar", signingName := some "s3", signingRegion := some "ap-south-2" } ]
      (by decide) (by decide) (by decide)]
    rfl⟩

/-- The bucket ARN of `test_assign_existing_scope_var_raises`, parsed. -/
def mybucketArnString : String := "arn:aws:s3:us-east-1:123456789012:mybucket"

/-- The scope value `aws.parseArn` binds for the test bucket ARN. -/
def mybucketArnValue : Value :=
  arnToValue { partition := "aws", service := "s3", region := "us-east-1",
               accountId := "123456789012", resourceId := ["mybucket"] }

/-- The scope after the first `assign: bucketArn` condition of the test. -/
def dupAssignScope : Scope :=
  [("bucketArn", some mybucketArnValue), ("Bucket", some (.str mybucketArnString))]

/-- **C5.** Along any single evaluation path a scope variable name may be
bound at most once: a condition whose `assign` names an already-bound
variable is a fatal resolution error with exactly the message
`Assignment NAME already exists in scoped variables and cannot be
overwritten` — the function result is computed but the existing binding is
not silently overwritten, and the whole condition chain fails with that
error. -/
theorem duplicate_assignment_fatal (tbl : PartitionTable) (fn : String)
    (argv : List Expr) (n : String) (scope : Scope) (args : List (Option Value))
    (scope1 : Scope) (r : Option Value) (rest : List Expr)
    (h1 : resolveArgs tbl argv scope = .ok (args, scope1))
    (h2 : scopeHas scope1 n = true)
    (h3 : applyFn tbl fn args = .ok r) :
    resolveValue tbl (.fnCall fn argv (some n)) scope
      = .error ("Assignment " ++ n ++
          " already exists in scoped variables and cannot be overwritten")
    ∧ evaluateConditions tbl (.fnCall fn argv (some n) :: rest) scope
      = .error ("Assignment " ++ n ++
          " already exists in scoped variables and cannot be overwritten") := by
  have hval : resolveValue tbl (.fnCall fn argv (some n)) scope
      = .error ("Assignment " ++ n ++
          " already exists in scoped variables and cannot be overwritten") := by
    simp only [resolveValue, h1, Bind.bind, Except.bind]
    simp only [h3]
    simp [h2]
  refine ⟨hval, ?_⟩
  unfold evaluateConditions
  rw [hval]
  rfl

/-- Witness for C5: the condition chain of
`test_assign_existing_scope_var_raises` — `aws.parseArn` assigning
`bucketArn` a second time — fails with the exact tested message. -/
theorem duplicate_assignment_fatal_witness :
    evaluateConditions standardPartitionTable
      [ .fnCall "aws.parseArn" [.strLit "{Bucket}"] (some "bucketArn")
      , .fnCall "aws.parseArn" [.strLit "{Bucket}"] (some "bucketArn") ]
      [("Bucket", some (.str mybucketArnString))]
      = .error "Assignment bucketArn already exists in scoped variables and cannot be overwritten" := by
  exact (duplicate_assignment_fatal standardPartitionTable "aws.parseArn"
    [.strLit "{Bucket}"] "bucketArn" dupAssignScope
    [some (.str mybucketArnString)] dupAssignScope (some mybucketArnValue) []
    (by rfl) (by rfl) (by rfl)).2

/-- Snapshot equivalence is reflexive: every snapshot is equivalent to
itself, so a just-cached snapshot is found again. -/
theorem snapshotEquiv_refl (p : Snapshot) : snapshotEquiv p p = true := by
  simp [snapshotEquiv, List.all_eq_true]

/-- A freshly inserted snapshot is found in the cache. -/
theorem cacheLookup_insert_self (cache : ProviderCache) (p : Snapshot)
    (e : ResolvedEndpoint) : cacheLookup (cacheInsert cache p e) p = some e := by
  simp [cacheLookup, cacheInsert, List.find?_cons_of_pos, snapshotEquiv_refl]

/-- Inserting an entry for `p` does not make a non-equivalent, previously
uncached snapshot `q` hit the cache. -/
theorem cacheLookup_insert_other (cache : ProviderCache) (p q : Snapshot)
    (e : ResolvedEndpoint) (hpq : snapshotEquiv p q = false)
    (hq : cacheLookup cache q = none) :
    cacheLookup (cacheInsert cache p e) q = none := by
  have hq' : (cache : List (Snapshot × ResolvedEndpoint)).find?
      (fun kv => snapshotEquiv kv.fst q) = none := by
    simp only [cacheLookup, Option.map_eq_none'] at hq
    exact hq
  simp only [cacheLookup, cacheInsert, Option.map_eq_none']
  rw [List.find?_eq_none]
  intro kv hkv
  rcases List.mem_cons.mp hkv with h | h
  · subst h
    simp [hpq]
  · have := List.find?_eq_none.mp hq' kv (List.take_subset _ _ h)
    simpa using this

/-- **C1.** For every parameter snapshot accepted by a rule set, a repeated
call of `resolve_endpoint` with the identical fully merged snapshot returns
the cached endpoint without re-invoking the rule-set evaluator (invocation
count 0 and unchanged cache state), while a call with a differing snapshot
that is not already cached always triggers a fresh invocation of the
evaluator (invocation count 1, result taken from the evaluator). -/
theorem resolve_endpoint_cache_idempotent
    (evaluate : Snapshot → Except String ResolvedEndpoint)
    (cache : ProviderCache) (p : Snapshot) (e : ResolvedEndpoint)
    (cache' : ProviderCache) (n : Nat)
    (h : resolveEndpointCached evaluate cache p = (.ok e, cache', n)) :
    resolveEndpointCached evaluate cache' p = (.ok e, cache', 0)
    ∧ ∀ q : Snapshot, snapshotEquiv p q = false → cacheLookup cache q = none →
        (resolveEndpointCached evaluate cache' q).1 = evaluate q
        ∧ (resolveEndpointCached evaluate cache' q).2.2 = 1 := by
  cases hc : cacheLookup cache p with
  | some ep =>
    simp only [resolveEndpointCached, hc] at h
    injection h with h1 h2
    injection h2 with h2a h2b
    injection h1 with h1a
    subst h1a; subst h2a; subst h2b
    refine ⟨by simp [resolveEndpointCached, hc], ?_⟩
    intro q _ hq
    simp only [resolveEndpointCached, hq]
    cases evaluate q <;> simp
  | none =>
    simp only [resolveEndpointCached, hc] at h
    cases he : evaluate p with
    | error err => simp only [he] at h; injection h with h1 _; cases h1
    | ok ep =>
      simp only [he] at h
      injection h with h1 h2
      injection h2 with h2a h2b
      injection h1 with h1a
      subst h1a; subst h2a; subst h2b
      refine ⟨by simp [resolveEndpointCached, cacheLookup_insert_self], ?_⟩
      intro q hpq hq
      simp only [resolveEndpointCached, cacheLookup_insert_other cache p q _ hpq hq]
      cases evaluate q <;> simp

/-- The account-id snapshot used to exercise the provider cache. -/
def accountSnap : Snapshot := [("AccountId", ParamValue.str "1234567890")]

/-- The endpoint the account-id rule set resolves for `accountSnap`. -/
def accountEp : ResolvedEndpoint := { url := "https://1234567890.amazonaws.com" }

/-- Witness for C1: after resolving `accountSnap` once through the
account-id provider, the repeated call is a cache hit with zero evaluator
invocations, and a differing (empty) snapshot invokes the evaluator. -/
theorem resolve_endpoint_cache_idempotent_witness :
    providerResolve standardPartitionTable accountIdRuleset [(accountSnap, accountEp)]
        accountSnap = (.ok accountEp, [(accountSnap, accountEp)], 0)
    ∧ (providerResolve standardPartitionTable accountIdRuleset [(accountSnap, accountEp)]
        []).2.2 = 1 := by
  have h := resolve_endpoint_cache_idempotent
    (ruleSetEvaluate standardPartitionTable accountIdRuleset) [] accountSnap accountEp
    [(accountSnap, accountEp)] 1 (by rfl)
  exact ⟨h.1, (h.2 [] (by rfl) (by rfl)).2⟩

/-- Counterexample to **C2** as stated: with mode `required`, an explicitly
supplied account id (`0987654321`) and *no* active credentials, the
endpoint is resolved *without* the explicit account id — the account id
builtin is cleared when no credentials are active (test case
`(BUILTINS_WITH_RESOLVED_ACCOUNT_ID, None, REQUIRED, URL_NO_ACCOUNT_ID)` of
`test_account_id_builtin`), so the explicit id does not always win "for
every combination of credentials". -/
theorem account_id_explicit_ignored_without_credentials :
    constructAccountIdEndpoint (some "0987654321") none .required
      = .ok { url := "https://amazonaws.com" }
    ∧ ¬ constructAccountIdEndpoint (some "0987654321") none .required
      = .ok { url := "https://0987654321.amazonaws.com" } := by
  refine ⟨rfl, fun h => ?_⟩
  have h2 : (Except.ok { url := "https://amazonaws.com" }
      : Except ConstructError ResolvedEndpoint)
      = .ok { url := "https://0987654321.amazonaws.com" } := h
  injection h2 with h3
  have h4 : ("https://amazonaws.com" : String) = "https://0987654321.amazonaws.com" :=
    congrArg ResolvedEndpoint.url h3
  exact absurd h4 (by decide)

/-- **C2** (amended): under mode `required` or `preferred`, whenever
credentials are active, an explicitly supplied account id always overrides
the credentials-derived one (whether or not the credentials carry an
account id); when no credentials are active the account id builtin is
cleared and the endpoint carries no account id, even if one was explicitly
supplied. -/
theorem account_id_explicit_override :
    (∀ (a : String) (c : Credentials) (mode : AccountIdEndpointMode),
      mode ≠ .disabled →
      constructAccountIdEndpoint (some a) (some c) mode
        = .ok { url := "https://" ++ a ++ ".amazonaws.com" })
    ∧ ∀ (a : String) (mode : AccountIdEndpointMode),
        constructAccountIdEndpoint (some a) none mode
          = .ok { url := "https://amazonaws.com" } := by
  constructor
  · intro a c mode h
    obtain ⟨d⟩ := a
    cases mode with
    | required => rfl
    | preferred => rfl
    | disabled => exact absurd rfl h
  · intro a mode
    rfl

/-- Witness for C2 (amended): the explicit id `0987654321` wins over
credentials carrying `1234567890` in `required` mode, and also over
credentials carrying no account id in `preferred` mode. -/
theorem account_id_explicit_override_witness :
    constructAccountIdEndpoint (some "0987654321")
        (some { accountId := some "1234567890" }) .required
      = .ok { url := "https://0987654321.amazonaws.com" }
    ∧ constructAccountIdEndpoint (some "0987654321")
        (some { accessKey := "foo", secretKey := "bar", token := "baz" }) .preferred
      = .ok { url := "https://0987654321.amazonaws.com" } :=
  ⟨account_id_explicit_override.1 "0987654321" { accountId := some "1234567890" }
      .required (by intro h; cases h),
   account_id_explicit_override.1 "0987654321"
      { accessKey := "foo", secretKey := "bar", token := "baz" } .preferred
      (by intro h; cases h)⟩

/-- Counterexample to **C3** as stated: with mode `required` and no account
id resolvable from either the explicit builtin or the (absent) credentials,
`construct_endpoint` does *not* fail — because no credentials are active,
account-id resolution is skipped and the no-account-id endpoint is
returned. -/
theorem required_mode_without_credentials_no_error :
    constructAccountIdEndpoint none none .required = .ok { url := "https://amazonaws.com" }
    ∧ ¬ constructAccountIdEndpoint none none .required = .error .accountIdNotFound := by
  refine ⟨rfl, fun h => ?_⟩
  have h2 : (Except.ok { url := "https://amazonaws.com" }
      : Except ConstructError ResolvedEndpoint) = .error .accountIdNotFound := h
  cases h2

/-- **C3** (amended): with mode `disabled` the resolved endpoint never
contains an account id segment, regardless of an explicit builtin value or
of any credentials; with mode `required`, credentials active but carrying
no account id, and no explicit builtin value, `construct_endpoint` fails
with the account-id-not-found error. (With no credentials at all, account
id resolution is skipped and no error is raised.) -/
theorem account_id_mode_disabled_and_required :
    (∀ (explicit : Option String) (creds : Option Credentials),
      constructAccountIdEndpoint explicit creds .disabled
        = .ok { url := "https://amazonaws.com" })
    ∧ ∀ c : Credentials, c.accountId = none →
        constructAccountIdEndpoint none (some c) .required = .error .accountIdNotFound := by
  constructor
  · intro explicit creds
    cases creds with
    | none => rfl
    | some c => rfl
  · intro c h
    obtain ⟨ak, sk, tk, aid, sc⟩ := c
    cases aid with
    | none => rfl
    | some x => simp at h

/-- Witness for C3 (amended): mode `disabled` drops an explicitly supplied
account id even with credentials carrying one (`test_account_id_builtin`
row 4), and `required` with credentials lacking an account id raises the
account-id-not-found error (`test_required_mode_no_account_id`). -/
theorem account_id_mode_disabled_and_required_witness :
    constructAccountIdEndpoint (some "0987654321")
        (some { accountId := some "1234567890" }) .disabled
      = .ok { url := "https://amazonaws.com" }
    ∧ constructAccountIdEndpoint none
        (some { accessKey := "a", secretKey := "b", token := "c" }) .required
      = .error .accountIdNotFound :=
  ⟨account_id_mode_disabled_and_required.1 (some "0987654321")
      (some { accountId := some "1234567890" }),
   account_id_mode_disabled_and_required.2
      { accessKey := "a", secretKey := "b", token := "c" } rfl⟩

/-- **C9.** Credential-scope resolution precedence: an explicitly
supplied/pre-resolved credential-scope builtin wins over the active
credentials' scope; otherwise the credentials' scope is used if present;
otherwise the scope is absent — and the resolved scope selects which
region-qualified endpoint branch matches, with the no-scope URL returned
when neither source provides a scope. The boolean component is the
resolver's `credential_scope_set` flag. -/
theorem credential_scope_resolution :
    (∀ (s : String) (creds : Option Credentials),
      constructCredentialScopeEndpoint (some s) creds
        = .ok ({ url := "https://" ++ s ++ ".amazonaws.com" }, true))
    ∧ (∀ (c : Credentials) (s : String), c.scope = some s →
        constructCredentialScopeEndpoint none (some c)
          = .ok ({ url := "https://" ++ s ++ ".amazonaws.com" }, true))
    ∧ (∀ c : Credentials, c.scope = none →
        constructCredentialScopeEndpoint none (some c)
          = .ok ({ url := "https://amazonaws.com" }, false))
    ∧ constructCredentialScopeEndpoint none none
        = .ok ({ url := "https://amazonaws.com" }, false) := by
  refine ⟨?_, ?_, ?_, rfl⟩
  · intro s creds
    obtain ⟨d⟩ := s
    rfl
  · intro c s h
    obtain ⟨ak, sk, tk, aid, sc⟩ := c
    cases sc with
    | none => simp at h
    | some t =>
      have ht : t = s := by simpa using h
      subst ht
      obtain ⟨d⟩ := t
      rfl
  · intro c h
    obtain ⟨ak, sk, tk, aid, sc⟩ := c
    cases sc with
    | none => rfl
    | some t => simp at h

/-- Witness for C9: a pre-resolved scope of `us-east-1` yields the
us-east-1 URL even when the credentials carry scope `us-west-2`; without a
pre-resolved value the credentials' scope `us-west-2` is used; with no
scope anywhere the no-scope URL is returned and the scope-set flag is
false. -/
theorem credential_scope_resolution_witness :
    constructCredentialScopeEndpoint (some "us-east-1")
        (some { accountId := some "1234567890", scope := some "us-west-2" })
      = .ok ({ url := "https://us-east-1.amazonaws.com" }, true)
    ∧ constructCredentialScopeEndpoint none
        (some { accountId := some "1234567890", scope := some "us-west-2" })
      = .ok ({ url := "https://us-west-2.amazonaws.com" }, true)
    ∧ constructCredentialScopeEndpoint none
        (some { accountId := some "1234567890" })
      = .ok ({ url := "https://amazonaws.com" }, false) :=
  ⟨credential_scope_resolution.1 "us-east-1"
      (some { accountId := some "1234567890", scope := some "us-west-2" }),
   credential_scope_resolution.2.1
      { accountId := some "1234567890", scope := some "us-west-2" } "us-west-2" rfl,
   credential_scope_resolution.2.2.1 { accountId := some "1234567890" } rfl⟩

end EndpointResolution
